import Mathlib

/-!
Shallow embedding of src/source/usr/lib/mcvirt/virtual_machine/factory.py
(class Factory), the VM provisioning and inventory orchestrator of MCVirt.

Configuration and filesystem state is threaded explicitly through every
operation; external collaborators (cluster membership, permission engine,
libvirt, DRBD availability) are read-only facts packaged in an Env record.
Side effects whose implementations live outside this file (remote fan-out
create, libvirt registration, disk and network-adapter creation, git
history) are recorded as events in the state.
-/

namespace MCVirt

/-- Errors raised by the factory. Constructors mirror the exception classes
imported at the top of factory.py, carrying the exact message strings built
by the source. Two extra constructors model Python-level failures the source
can hit: NameErrorUndefined for a reference to a name that is not imported
or defined in the module, and RemoteMethodNotFound for a Pyro call to a
method name the remote Factory object does not expose. -/
inductive McvirtError where
  | PermissionDenied
  | InvalidVirtualMachineNameException (msg : String)
  | ClusterNotInitialisedException (msg : String)
  | VmAlreadyExistsException (msg : String)
  | DRBDNotEnabledOnNode (msg : String)
  | NodeDoesNotExistException (msg : String)
  | InvalidNodesException (msg : String)
  | NameErrorUndefined (pythonName : String)
  | RemoteMethodNotFound (method : String)
deriving DecidableEq, Repr

/-- Side effects of create whose implementations live outside factory.py;
arguments are exactly those the source passes at each call site. -/
inductive Event where
  | remoteCreate (targetNode : String) (name : String) (node : String)
      (availableNodes : List String)
  | gitAdd (msg : String)
  | registerVM (name : String) (set_node : Bool)
  | setNode (name : String) (node : String)
  | createDisk (name : String) (size : Nat) (storage_type : Option String)
      (driver : Option String)
  | createNetworkAdapter (name : String) (network : String)
deriving DecidableEq, Repr

/-- Per-VM configuration record written by VirtualMachineConfig.create(name,
available_nodes, cpu_cores, memory_allocation) at factory.py line 176. -/
structure VMConfigRecord where
  name : String
  nodes : List String
  cpu_cores : Nat
  memory_allocation : Nat
deriving DecidableEq, Repr

/-- The mutable state the factory touches: the cluster-wide VM list held in
MCVirtConfig under the virtual_machines key, the set of VM names whose
private directory (VirtualMachine.getVMDir(name)) exists on the filesystem,
the per-VM configuration records, the MCVirtConfig update-message log, and
the log of external side effects. -/
structure McvirtState where
  virtualMachines : List String
  vmDirs : List String
  vmConfigs : List VMConfigRecord
  configLog : List String
  events : List Event
deriving DecidableEq, Repr

/-- Read-only facts about the node and its external collaborators.
hostname is get_hostname(); clusterNodes is
cluster.getNodes(return_all=True), the REMOTE cluster members (the source
appends the local hostname itself, line 140); isClusterMaster is
self._is_cluster_master; clusterDisabled is self._cluster_disabled;
drbdEnabled is NodeDRBD.isEnabled(); hasPermissionCreateVM is whether
auth.assertPermission(PERMISSIONS.CREATE_VM) passes; libvirtDomains is the
name list of getLibvirtConnection().listAllDomains(). remoteVmNames,
powerStateName and vmNode are modelled from the spec: they stand for the
VM list reported by a remote node, VirtualMachine._getPowerState().name and
VirtualMachine.getNode() of virtual_machine.py, which is not under src. -/
structure Env where
  hostname : String
  clusterNodes : List String
  isClusterMaster : Bool
  clusterDisabled : Bool
  drbdEnabled : Bool
  hasPermissionCreateVM : Bool
  libvirtDomains : List String
  remoteVmNames : String → List String
  powerStateName : String → String
  vmNode : String → Option String

/-- Modelled from the spec: NodeDRBD.CLUSTER_SIZE lives in
mcvirt/node/drbd.py, which is not under src; the spec fixes the replication
factor at 2 (REPLICATION_FACTOR = 2, mirrored storage on exactly two
nodes). -/
def NodeDRBD.CLUSTER_SIZE : Nat := 2

/-- The character class ACCEPTED by the source regex (factory.py lines 84
and 107): re.compile of the pattern, negated class, whose members are a-z,
caret, 0-9, caret, A-Z and dash. Inside a negated class only the leading
caret negates; the two later carets are literal members, so the caret
character is (unintentionally) accepted. -/
def validNameClassChar (c : Char) : Bool :=
  (('a' ≤ c) && (c ≤ 'z')) || (c == '^') || (('0' ≤ c) && (c ≤ '9')) ||
  (('A' ≤ c) && (c ≤ 'Z')) || (c == '-')

/-- bool(valid_name_re(name)) where valid_name_re is the search of the
negated-class regex: true iff some character of name falls outside the
accepted class. -/
def invalidNameCharSearch (name : String) : Bool :=
  name.data.any (fun c => !(validNameClassChar c))

/-- Message of factory.py lines 86-88 and 109-111. -/
def invalidCharsMsg : String :=
  "Error: Invalid VM Name - VM Name can only contain 0-9 a-Z and dashes"

/-- The methods of Factory decorated with Pyro4.expose(); a Pyro proxy
resolves a remote call by method name against this set and an unknown name
fails without reaching any remote body. -/
def factoryExposedMethods : List String :=
  ["getVirtualMachineByName", "getAllVirtualMachines", "getAllVmNames",
   "listVms", "checkExists", "checkName", "create"]

/-- cluster.runRemoteCommand with a callback that fetches the remote
virtual_machine_factory connection and invokes the given method name on it
(factory.py lines 58-63). The lookup of the method name happens on the
Pyro proxy: a name outside the exposed set fails; otherwise the remote
factory reports its VM name list. -/
def remoteFactoryCall (env : Env) (node : String) (method : String) :
    Except McvirtError (List String) :=
  if factoryExposedMethods.contains method then
    .ok (env.remoteVmNames node)
  else
    .error (.RemoteMethodNotFound method)

/-- Factory.getAllVmNames (factory.py lines 46-63). node unset: the
virtual_machines list of the local MCVirtConfig. node equal to the local
hostname: the local libvirt domain list. Otherwise: remote call of the
method named getallVmNames (sic, lower-case a: the exposed method is
getAllVmNames) on that node. -/
def getAllVmNames (env : Env) (s : McvirtState) (node : Option String) :
    Except McvirtError (List String) × McvirtState :=
  match node with
  | none => (.ok s.virtualMachines, s)
  | some n =>
    if n = env.hostname then
      (.ok env.libvirtDomains, s)
    else
      (remoteFactoryCall env n "getallVmNames", s)

/-- Factory.checkExists (factory.py lines 77-80): vm_name in
self.getAllVmNames(). An exception from getAllVmNames would propagate. -/
def checkExists (env : Env) (s : McvirtState) (vm_name : String) :
    Except McvirtError Bool × McvirtState :=
  match getAllVmNames env s none with
  | (.ok names, s1) => (.ok (names.contains vm_name), s1)
  | (.error e, s1) => (.error e, s1)

/-- Factory.checkName (factory.py lines 82-96): regex-class check, then
minimum length 3, then existence; returns True when all pass. -/
def checkName (env : Env) (s : McvirtState) (name : String) :
    Except McvirtError Bool × McvirtState :=
  if invalidNameCharSearch name = true then
    (.error (.InvalidVirtualMachineNameException invalidCharsMsg), s)
  else if name.length < 3 then
    (.error (.InvalidVirtualMachineNameException
      "VM Name must be at least 3 characters long"), s)
  else
    match checkExists env s name with
    | (.ok true, s1) =>
      (.error (.InvalidVirtualMachineNameException "VM already exists"), s1)
    | (.ok false, s1) => (.ok true, s1)
    | (.error e, s1) => (.error e, s1)

/-- Factory.getVirtualMachineByName (factory.py lines 34-39): builds a
lightweight handle for the name (the accompanying _register_object call
touches only the in-process Pyro daemon, none of the modelled state). -/
def getVirtualMachineByName (_env : Env) (s : McvirtState) (vm_name : String) :
    String × McvirtState :=
  (vm_name, s)

/-- State-threaded elaboration of the list comprehension of
getAllVirtualMachines: one getVirtualMachineByName call per name, in
order. -/
def buildHandles (env : Env) (names : List String)
    (acc : List String × McvirtState) : List String × McvirtState :=
  names.foldl (fun acc nm =>
    let (h, s2) := getVirtualMachineByName env acc.2 nm
    (acc.1 ++ [h], s2)) acc

/-- Factory.getAllVirtualMachines (factory.py lines 41-44): a handle per
name of getAllVmNames(). -/
def getAllVirtualMachines (env : Env) (s : McvirtState) :
    Except McvirtError (List String) × McvirtState :=
  match getAllVmNames env s none with
  | (.error e, s1) => (.error e, s1)
  | (.ok names, s1) =>
    let (handles, s2) := buildHandles env names ([], s1)
    (.ok handles, s2)

/-- Factory.listVms (factory.py lines 65-75): one table row per VM handle,
(name, power-state label, node or the literal Unregistered). The Texttable
rendering is kept as the row list; power state and node come from
virtual_machine.py (not under src) and are read through Env. -/
def listVms (env : Env) (s : McvirtState) :
    Except McvirtError (List (String × String × String)) × McvirtState :=
  match getAllVirtualMachines env s with
  | (.error e, s1) => (.error e, s1)
  | (.ok handles, s1) =>
    (.ok (handles.map (fun nm =>
      (nm, env.powerStateName nm, (env.vmNode nm).getD "Unregistered"))), s1)

/-- Arguments of Factory.create (factory.py lines 100-102). auth_check is
accepted by the source but never read in the body. -/
structure CreateArgs where
  name : String
  cpu_cores : Nat
  memory_allocation : Nat
  hard_drives : List Nat := []
  network_interfaces : List String := []
  node : Option String := none
  available_nodes : List String := []
  storage_type : Option String := none
  auth_check : Bool := true
  hard_drive_driver : Option String := none

/-- Line 124-125: if a node has not been specified, assume the local node. -/
def resolveNode (env : Env) (a : CreateArgs) : String :=
  a.node.getD env.hostname

/-- Lines 138-140: all_nodes = cluster.getNodes(return_all=True) with the
local hostname appended. -/
def allNodes (env : Env) : List String :=
  env.clusterNodes ++ [env.hostname]

/-- Lines 142-149: an empty available_nodes argument defaults to all_nodes
for DRBD storage and to the local node alone otherwise; a non-empty
argument is used verbatim. -/
def resolveAvailableNodes (env : Env) (a : CreateArgs) : List String :=
  if a.available_nodes.length = 0 then
    if a.storage_type = some "DRBD" then allNodes env
    else [env.hostname]
  else a.available_nodes

/-- The validation phase of Factory.create, lines 104-162, in source order:
permission, regex name class, cluster initialised, existence, DRBD enabled,
VM directory, DRBD node count, node membership, local-node membership on
the master. Returns the first error, or none when every check passes. The
directory check (lines 132-133) raises VmDirectoryAlreadyExistsException,
a name that is neither imported (lines 16-19) nor defined in the module, so
in Python it raises NameError at that point. -/
def createValidate (env : Env) (s : McvirtState) (a : CreateArgs) :
    Option McvirtError :=
  if env.hasPermissionCreateVM = false then
    some .PermissionDenied
  else if invalidNameCharSearch a.name = true then
    some (.InvalidVirtualMachineNameException invalidCharsMsg)
  else if env.clusterDisabled = true then
    some (.ClusterNotInitialisedException
      "VM cannot be created whilst the cluster is not initialised")
  else if s.virtualMachines.contains a.name = true then
    some (.VmAlreadyExistsException "Error: VM already exists")
  else if a.storage_type = some "DRBD" ∧ env.drbdEnabled = false then
    some (.DRBDNotEnabledOnNode "DRBD is not enabled on this node")
  else if s.vmDirs.contains a.name = true then
    some (.NameErrorUndefined "VmDirectoryAlreadyExistsException")
  else if a.storage_type = some "DRBD" ∧
      (resolveAvailableNodes env a).length ≠ NodeDRBD.CLUSTER_SIZE then
    some (.InvalidNodesException "Exactly two nodes must be specified")
  else
    match (resolveAvailableNodes env a).find?
        (fun n => !((allNodes env).contains n)) with
    | some bad =>
      some (.NodeDoesNotExistException
        ("Node \x27" ++ bad ++ "\x27 does not exist"))
    | none =>
      if (resolveAvailableNodes env a).contains env.hostname = false ∧
          env.isClusterMaster = true then
        some (.InvalidNodesException "One of the nodes must be the local node")
      else none

/-- The mutation phase of Factory.create, lines 165-218, in source order:
makedirs of the VM directory; atomic append of the name to the
virtual_machines list with the audit message; VirtualMachineConfig.create;
on the master, the fan-out create to every remote cluster node; gitAdd of
the creation; libvirt registration (set_node true only on the master) when
the resolved node is local, else _setNode on the master; and, on the
master only, one disk creation per hard drive size and one network adapter
per interface name. -/
def createApply (env : Env) (s : McvirtState) (a : CreateArgs) : McvirtState :=
  let node := resolveNode env a
  let available_nodes := resolveAvailableNodes env a
  let s1 := { s with vmDirs := s.vmDirs ++ [a.name] }
  let s2 := { s1 with
    virtualMachines := s1.virtualMachines ++ [a.name],
    configLog := s1.configLog ++
      ["Adding new VM \x27" ++ a.name ++ "\x27 to global MCVirt configuration"] }
  let s3 := { s2 with vmConfigs := s2.vmConfigs ++
    [({ name := a.name, nodes := available_nodes, cpu_cores := a.cpu_cores,
        memory_allocation := a.memory_allocation } : VMConfigRecord)] }
  let s4 := if env.isClusterMaster then
      { s3 with events := s3.events ++
        env.clusterNodes.map (fun n => Event.remoteCreate n a.name node available_nodes) }
    else s3
  let s5 := { s4 with events := s4.events ++
    [Event.gitAdd ("Created VM \x27" ++ a.name ++ "\x27")] }
  let s6 := if node = env.hostname then
      { s5 with events := s5.events ++
        [Event.registerVM a.name env.isClusterMaster] }
    else if env.isClusterMaster then
      { s5 with events := s5.events ++ [Event.setNode a.name node] }
    else s5
  if env.isClusterMaster then
    { s6 with events := s6.events ++
      a.hard_drives.map (fun sz =>
        Event.createDisk a.name sz a.storage_type a.hard_drive_driver) ++
      a.network_interfaces.map (fun nw =>
        Event.createNetworkAdapter a.name nw) }
  else s6

/-- Factory.create (factory.py lines 98-220): all validation checks run
before the first mutation; on success the handle for the new name is
returned together with the mutated state. -/
def create (env : Env) (s : McvirtState) (a : CreateArgs) :
    Except McvirtError String × McvirtState :=
  match createValidate env s a with
  | some e => (.error e, s)
  | none => (.ok a.name, createApply env s a)

/-! Concrete fixtures: a two-node cluster (local hostname node1, one remote
member node2) in the states the witnesses and counterexamples evaluate. -/

/-- A master node of a two-node cluster, fully enabled. -/
def envMaster : Env :=
  { hostname := "node1", clusterNodes := ["node2"], isClusterMaster := true,
    clusterDisabled := false, drbdEnabled := true,
    hasPermissionCreateVM := true, libvirtDomains := [],
    remoteVmNames := fun _ => [], powerStateName := fun _ => "STOPPED",
    vmNode := fun _ => none }

/-- The same node seen as a non-master cluster member. -/
def envMember : Env :=
  { envMaster with isClusterMaster := false }

/-- The same node for a caller without the CREATE_VM permission. -/
def envNoPerm : Env :=
  { envMaster with hasPermissionCreateVM := false }

/-- Fresh state: no VMs, no directories, no records. -/
def s0 : McvirtState :=
  { virtualMachines := [], vmDirs := [], vmConfigs := [], configLog := [],
    events := [] }

/-- State in which the VM directory for vm1 already exists while the VM is
absent from every configuration. -/
def sDirTaken : McvirtState :=
  { s0 with vmDirs := ["vm1"] }

/-- A plain local-storage creation request with every optional argument at
its default. -/
def cArgsPlain : CreateArgs :=
  { name := "vm1", cpu_cores := 1, memory_allocation := 512 }

/-- A DRBD creation request with no explicit available_nodes. -/
def cArgsDrbdDefault : CreateArgs :=
  { cArgsPlain with storage_type := some "DRBD" }

/-- A DRBD creation request with one explicit available node. -/
def cArgsDrbdOne : CreateArgs :=
  { cArgsPlain with
    storage_type := some "DRBD",
    available_nodes := ["node1"] }

/-- A local-storage creation request with two explicit available nodes. -/
def cArgsTwoNodes : CreateArgs :=
  { cArgsPlain with available_nodes := ["node1", "node2"] }

/-- A creation request whose explicit available node is only the remote
member. -/
def cArgsRemoteOnly : CreateArgs :=
  { cArgsPlain with available_nodes := ["node2"] }

/-- A creation request with a two-character name of allowed characters. -/
def cArgsShort : CreateArgs :=
  { cArgsPlain with name := "ab" }

/-- A creation request whose name holds a space and an exclamation mark. -/
def cArgsBadChars : CreateArgs :=
  { cArgsPlain with name := "bad name!" }

/-! Helper lemmas shared by several claim proofs. -/

/-- checkExists with the local branch of getAllVmNames is membership in the
cluster-wide VM list, and it leaves the state unchanged. -/
theorem checkExists_spec (env : Env) (s : McvirtState) (nm : String) :
    checkExists env s nm = (.ok (s.virtualMachines.contains nm), s) := rfl

/-- buildHandles never changes the threaded state. -/
theorem buildHandles_snd (env : Env) (names : List String)
    (acc : List String × McvirtState) :
    (buildHandles env names acc).2 = acc.2 := by
  induction names generalizing acc with
  | nil => rfl
  | cons x xs ih => exact ih _

/-- When the explicit available_nodes argument is non-empty it is used
verbatim. -/
theorem resolveAvailableNodes_explicit (env : Env) (a : CreateArgs)
    (hne : a.available_nodes ≠ []) :
    resolveAvailableNodes env a = a.available_nodes := by
  unfold resolveAvailableNodes
  rw [if_neg]
  simp [List.length_eq_zero, hne]

/-- The mutation phase appends exactly one per-VM configuration record,
carrying the resolved available nodes. -/
theorem createApply_vmConfigs (env : Env) (s : McvirtState) (a : CreateArgs) :
    (createApply env s a).vmConfigs = s.vmConfigs ++
      [{ name := a.name, nodes := resolveAvailableNodes env a,
         cpu_cores := a.cpu_cores,
         memory_allocation := a.memory_allocation }] := by
  simp only [createApply]
  repeat' split
  all_goals rfl

/-! Claim theorems. -/

/-- C1: the claim says checkName fails with InvalidName for every name
holding a character outside the class A-Za-z0-9 and dash. The source regex
negated class contains two literal carets, so checkName accepts the name
a caret b, which holds a caret, and returns True: the validation admits the
caret character, contradicting the error message of the source itself. -/
theorem c1_checkName_accepts_caret :
    checkName envMaster s0 "a^b" = (.ok true, s0) := rfl

/-- C2 counterexample: with storage type DRBD, DRBD enabled, and an
available_nodes set of size 0 (size different from 2), create on a
two-node cluster does not fail with the node-count error: the empty set is
replaced by the cluster default before the count check, and the creation
succeeds. -/
theorem c2_counterexample_empty_nodes_drbd_succeeds :
    cArgsDrbdDefault.available_nodes.length ≠ 2 ∧
    (create envMaster s0 cArgsDrbdDefault).1 = .ok "vm1" :=
  ⟨by decide, rfl⟩

/-- C2 amended: for every create call that reaches node selection (caller
permitted, name in the accepted class, cluster initialised, name unused,
DRBD enabled, directory absent) with storage type DRBD and an explicitly
supplied non-empty available_nodes of size other than 2, create fails with
the InvalidNodesException saying exactly two nodes must be specified. -/
theorem c2_drbd_explicit_node_count (env : Env) (s : McvirtState)
    (a : CreateArgs)
    (hperm : env.hasPermissionCreateVM = true)
    (hchar : invalidNameCharSearch a.name = false)
    (hdis : env.clusterDisabled = false)
    (hex : s.virtualMachines.contains a.name = false)
    (hst : a.storage_type = some "DRBD")
    (hdrbd : env.drbdEnabled = true)
    (hdir : s.vmDirs.contains a.name = false)
    (hne : a.available_nodes ≠ [])
    (hlen : a.available_nodes.length ≠ 2) :
    (create env s a).1 =
      .error (.InvalidNodesException "Exactly two nodes must be specified") := by
  have hres := resolveAvailableNodes_explicit env a hne
  have hv : createValidate env s a =
      some (.InvalidNodesException "Exactly two nodes must be specified") := by
    unfold createValidate
    rw [if_neg (by simp [hperm]), if_neg (by simp [hchar]),
        if_neg (by simp [hdis]), if_neg (by simpa using hex),
        if_neg (by simp [hdrbd]), if_neg (by simpa using hdir),
        if_pos ⟨hst, by rw [hres]; exact hlen⟩]
  unfold create
  rw [hv]

/-- C2 witness: a DRBD request with one explicit node fails with the
node-count error on the two-node cluster. -/
theorem c2_witness :
    (create envMaster s0 cArgsDrbdOne).1 =
      .error (.InvalidNodesException "Exactly two nodes must be specified") :=
  c2_drbd_explicit_node_count envMaster s0 cArgsDrbdOne rfl rfl rfl rfl rfl
    rfl rfl (by decide) (by decide)

/-- C3: when the VM directory already exists, create fails before any
mutation, but the raise site references VmDirectoryAlreadyExistsException,
a name absent from the import list (factory.py lines 16-19) and from the
module, so Python raises NameError there instead of the documented
DirectoryConflict error. The state is returned untouched. -/
theorem c3_directory_conflict_raises_undefined_name :
    create envMaster sDirTaken cArgsPlain =
      (.error (.NameErrorUndefined "VmDirectoryAlreadyExistsException"),
       sDirTaken) := rfl

/-- C4 counterexample: the claim says create fails with InvalidName for
every name shorter than 3 characters. The two-character name ab passes the
name validation of create (which checks only the character class) and the
creation succeeds. -/
theorem c4_counterexample_short_name_succeeds :
    cArgsShort.name.length < 3 ∧
    (create envMaster s0 cArgsShort).1 = .ok "ab" :=
  ⟨by decide, rfl⟩

/-- C4 amended: create enforces only the character-class part of the name
validation: a permitted caller passing a name with a character outside the
accepted class fails with InvalidName and no state is mutated; the minimum
length of 3 is not checked by create, so short names of accepted
characters proceed. -/
theorem c4_create_rejects_invalid_chars (env : Env) (s : McvirtState)
    (a : CreateArgs)
    (hperm : env.hasPermissionCreateVM = true)
    (hchar : invalidNameCharSearch a.name = true) :
    (create env s a).1 =
      .error (.InvalidVirtualMachineNameException invalidCharsMsg) ∧
    (create env s a).2 = s := by
  have hv : createValidate env s a =
      some (.InvalidVirtualMachineNameException invalidCharsMsg) := by
    simp [createValidate, hperm, hchar]
  unfold create
  rw [hv]
  exact ⟨rfl, rfl⟩

/-- C4 witness: a name holding a space and an exclamation mark is rejected
with InvalidName and the state is untouched. -/
theorem c4_witness :
    (create envMaster s0 cArgsBadChars).1 =
      .error (.InvalidVirtualMachineNameException invalidCharsMsg) ∧
    (create envMaster s0 cArgsBadChars).2 = s0 :=
  c4_create_rejects_invalid_chars envMaster s0 cArgsBadChars rfl rfl

/-- C5: the claim says getAllVmNames with a remote node argument returns
the list that node reports. The source invokes the remote method by the
name getallVmNames (lower-case a), which is not among the exposed methods
of Factory (the method is getAllVmNames), so the remote call fails even
when the node is reachable, and no list is returned. -/
theorem c5_remote_list_typo_fails :
    getAllVmNames envMaster s0 (some "node2") =
      (.error (.RemoteMethodNotFound "getallVmNames"), s0) := rfl

/-- C6: every create call that fails validation (permission, name class,
cluster state, existence, DRBD availability, directory, node count, node
membership, local-node membership) returns with the state exactly as it
was: no directory, no VM-list entry, no per-VM record, no event. -/
theorem c6_validation_failure_no_mutation (env : Env) (s : McvirtState)
    (a : CreateArgs) (e : McvirtError)
    (h : (create env s a).1 = .error e) :
    (create env s a).2 = s := by
  unfold create at h ⊢
  cases hv : createValidate env s a with
  | none =>
    rw [hv] at h
    simp at h
  | some err =>
    rfl

/-- C6 witness: a caller without the CREATE_VM permission leaves the fresh
state unchanged. -/
theorem c6_witness : (create envNoPerm s0 cArgsPlain).2 = s0 :=
  c6_validation_failure_no_mutation envNoPerm s0 cArgsPlain
    .PermissionDenied rfl

/-- C7: on the cluster master, a create call that reaches node selection
and resolves to an available_nodes set of valid cluster members that does
not contain the local hostname fails with the InvalidNodesException saying
one of the nodes must be the local node. -/
theorem c7_master_requires_local_node (env : Env) (s : McvirtState)
    (a : CreateArgs)
    (hperm : env.hasPermissionCreateVM = true)
    (hchar : invalidNameCharSearch a.name = false)
    (hdis : env.clusterDisabled = false)
    (hex : s.virtualMachines.contains a.name = false)
    (hdrbd : a.storage_type = some "DRBD" → env.drbdEnabled = true)
    (hdir : s.vmDirs.contains a.name = false)
    (hcount : a.storage_type = some "DRBD" →
      (resolveAvailableNodes env a).length = NodeDRBD.CLUSTER_SIZE)
    (hmem : ∀ n ∈ resolveAvailableNodes env a,
      (allNodes env).contains n = true)
    (hmaster : env.isClusterMaster = true)
    (hlocal : (resolveAvailableNodes env a).contains env.hostname = false) :
    (create env s a).1 =
      .error (.InvalidNodesException "One of the nodes must be the local node") := by
  have hfind : (resolveAvailableNodes env a).find?
      (fun n => !((allNodes env).contains n)) = none := by
    rw [List.find?_eq_none]
    intro x hx
    simpa using hmem x hx
  have hcond : ¬(a.storage_type = some "DRBD" ∧ env.drbdEnabled = false) := by
    intro hc
    rw [hdrbd hc.1] at hc
    exact absurd hc.2 (by simp)
  have hcount2 : ¬(a.storage_type = some "DRBD" ∧
      (resolveAvailableNodes env a).length ≠ NodeDRBD.CLUSTER_SIZE) := by
    intro hc
    exact hc.2 (hcount hc.1)
  have hv : createValidate env s a =
      some (.InvalidNodesException "One of the nodes must be the local node") := by
    unfold createValidate
    rw [if_neg (by simp [hperm]), if_neg (by simp [hchar]),
        if_neg (by simp [hdis]), if_neg (by simpa using hex),
        if_neg hcond, if_neg (by simpa using hdir), if_neg hcount2]
    simp only [hfind]
    rw [if_pos ⟨hlocal, hmaster⟩]
  unfold create
  rw [hv]

/-- C7 witness: the master of the two-node cluster, asked to create a
local-storage VM whose only available node is the remote member, fails
with the local-node error. -/
theorem c7_witness :
    (create envMaster s0 cArgsRemoteOnly).1 =
      .error (.InvalidNodesException "One of the nodes must be the local node") :=
  c7_master_requires_local_node envMaster s0 cArgsRemoteOnly rfl rfl rfl rfl
    (by decide) rfl (by decide) (by decide) rfl rfl

/-- C8 counterexample: the claim says every successful create with local
storage writes a record whose nodes set has exactly 1 hostname. A
local-storage create with an explicit two-element available_nodes succeeds
and writes a record carrying both hostnames. -/
theorem c8_counterexample_local_two_nodes :
    cArgsTwoNodes.storage_type ≠ some "DRBD" ∧
    (create envMaster s0 cArgsTwoNodes).1 = .ok "vm1" ∧
    (create envMaster s0 cArgsTwoNodes).2.vmConfigs =
      [{ name := "vm1", nodes := ["node1", "node2"], cpu_cores := 1,
         memory_allocation := 512 }] :=
  ⟨by decide, rfl, rfl⟩

/-- C8 amended: every successful create appends exactly one per-VM record
carrying the resolved available nodes; for replicated (DRBD) storage that
set always has exactly 2 members, and for local storage it has exactly 1
member when no explicit available_nodes was supplied — an explicit list is
stored verbatim, so its size can differ from 1. -/
theorem c8_created_record_nodes (env : Env) (s : McvirtState)
    (a : CreateArgs) (nm : String)
    (h : (create env s a).1 = .ok nm) :
    (create env s a).2.vmConfigs = s.vmConfigs ++
      [{ name := a.name, nodes := resolveAvailableNodes env a,
         cpu_cores := a.cpu_cores,
         memory_allocation := a.memory_allocation }] ∧
    (a.storage_type = some "DRBD" →
      (resolveAvailableNodes env a).length = 2) ∧
    (a.storage_type ≠ some "DRBD" → a.available_nodes = [] →
      (resolveAvailableNodes env a).length = 1) := by
  have hv : createValidate env s a = none := by
    cases hv : createValidate env s a with
    | none => rfl
    | some e =>
      unfold create at h
      rw [hv] at h
      simp at h
  refine ⟨?_, ?_, ?_⟩
  · unfold create
    rw [hv]
    exact createApply_vmConfigs env s a
  · intro hd
    by_contra hlen
    unfold createValidate at hv
    repeat' split at hv
    all_goals simp_all [NodeDRBD.CLUSTER_SIZE]
  · intro hd hempty
    simp [resolveAvailableNodes, hempty, hd]

/-- C8 witness: the default DRBD creation on the two-node cluster succeeds
and its record carries the two cluster hostnames. -/
theorem c8_witness :
    (create envMaster s0 cArgsDrbdDefault).2.vmConfigs = s0.vmConfigs ++
      [{ name := cArgsDrbdDefault.name,
         nodes := resolveAvailableNodes envMaster cArgsDrbdDefault,
         cpu_cores := cArgsDrbdDefault.cpu_cores,
         memory_allocation := cArgsDrbdDefault.memory_allocation }] ∧
    (cArgsDrbdDefault.storage_type = some "DRBD" →
      (resolveAvailableNodes envMaster cArgsDrbdDefault).length = 2) ∧
    (cArgsDrbdDefault.storage_type ≠ some "DRBD" →
      cArgsDrbdDefault.available_nodes = [] →
      (resolveAvailableNodes envMaster cArgsDrbdDefault).length = 1) :=
  c8_created_record_nodes envMaster s0 cArgsDrbdDefault "vm1" rfl

/-- C9: on a non-master node the local-node membership check is skipped:
create accepts an explicit available_nodes of valid cluster members that
excludes the local hostname, and with the node argument unset (defaulting
to the local hostname) it still registers the VM with the local hypervisor
passing set_node false. -/
theorem c9_nonmaster_skips_local_check (env : Env) (s : McvirtState)
    (a : CreateArgs)
    (hperm : env.hasPermissionCreateVM = true)
    (hchar : invalidNameCharSearch a.name = false)
    (hdis : env.clusterDisabled = false)
    (hex : s.virtualMachines.contains a.name = false)
    (hst : a.storage_type ≠ some "DRBD")
    (hdir : s.vmDirs.contains a.name = false)
    (hne : a.available_nodes ≠ [])
    (hmem : ∀ n ∈ a.available_nodes, (allNodes env).contains n = true)
    (hmaster : env.isClusterMaster = false)
    (hnode : a.node = none)
    (hlocal : a.available_nodes.contains env.hostname = false) :
    (create env s a).1 = .ok a.name ∧
    Event.registerVM a.name false ∈ (create env s a).2.events := by
  have hres := resolveAvailableNodes_explicit env a hne
  have hfind : (resolveAvailableNodes env a).find?
      (fun n => !((allNodes env).contains n)) = none := by
    rw [hres, List.find?_eq_none]
    intro x hx
    simpa using hmem x hx
  have hv : createValidate env s a = none := by
    unfold createValidate
    rw [if_neg (by simp [hperm]), if_neg (by simp [hchar]),
        if_neg (by simp [hdis]), if_neg (by simpa using hex),
        if_neg (by simp [hst]), if_neg (by simpa using hdir),
        if_neg (by simp [hst])]
    simp only [hfind]
    rw [if_neg (by simp [hmaster])]
  have hcreate : create env s a = (.ok a.name, createApply env s a) := by
    unfold create
    rw [hv]
  rw [hcreate]
  refine ⟨rfl, ?_⟩
  have hnd : resolveNode env a = env.hostname := by
    simp [resolveNode, hnode]
  simp [createApply, hmaster, hnd]

/-- C9 witness: a non-master member of the two-node cluster creates a VM
whose only available node is the remote member; the call succeeds and the
VM is registered locally with set_node false. -/
theorem c9_witness :
    (create envMember s0 cArgsRemoteOnly).1 = .ok cArgsRemoteOnly.name ∧
    Event.registerVM cArgsRemoteOnly.name false ∈
      (create envMember s0 cArgsRemoteOnly).2.events :=
  c9_nonmaster_skips_local_check envMember s0 cArgsRemoteOnly rfl rfl rfl rfl
    (by decide) rfl (by decide) (by decide) rfl rfl rfl

/-- C10: the query operations getAllVmNames with node unset, checkExists,
checkName, getAllVirtualMachines and listVms return the configuration and
filesystem state exactly as they found it. -/
theorem c10_query_ops_pure (env : Env) (s : McvirtState) (nm : String) :
    (getAllVmNames env s none).2 = s ∧
    (checkExists env s nm).2 = s ∧
    (checkName env s nm).2 = s ∧
    (getAllVirtualMachines env s).2 = s ∧
    (listVms env s).2 = s := by
  have h1 : (getAllVmNames env s none).2 = s := rfl
  have h2 : (checkExists env s nm).2 = s := by
    rw [checkExists_spec]
  have h3 : (checkName env s nm).2 = s := by
    unfold checkName
    split
    · rfl
    split
    · rfl
    rw [checkExists_spec]
    cases hb : s.virtualMachines.contains nm <;> simp [hb]
  have h4 : (getAllVirtualMachines env s).2 = s := by
    show (buildHandles env s.virtualMachines ([], s)).2 = s
    exact buildHandles_snd env s.virtualMachines ([], s)
  have h5 : (listVms env s).2 = s := by
    unfold listVms
    cases hg : getAllVirtualMachines env s with
    | mk r s1 =>
      have hs1 : s1 = s := by
        have h4c := h4
        rw [hg] at h4c
        exact h4c
      cases r <;> simpa using hs1
  exact ⟨h1, h2, h3, h4, h5⟩

end MCVirt
